import Mathlib

/-!
Verification of the Zoom transcript-to-Slack summary pipeline.

This file gives a shallow embedding of the core pipeline of the repository:
the VTT transcript cleaner (`lib/transcript-utils.ts`), the summary and
relevance generator (`lib/generate-summary.ts`), the metadata extractor
(`lib/transcript-analysis.ts`), the retrying transcript downloader and the
webhook transcript handler (the final single-table version of
`handleTranscriptCompleted`), the webhook POST endpoint
(`api/notification.ts`, final version), the Slack interactive endpoint
(`api/slack/interactive.ts`) and the read-only view-summary endpoint.

External collaborators (fetch, the LLM, Supabase, the Slack API, crypto
HMAC) are modelled as oracle parameters; every call the code makes to them
is recorded in an explicit effect trace so that ordering and absence of
side effects can be stated and proved.

JavaScript string primitives (split, trim, includes, toLowerCase, parseInt
and the two regular expressions of the cleaner) are translated to
executable Lean functions on `List Char`.  JS strings are UTF-16; all
inputs relevant here are ASCII, where the translation agrees with JS.
-/

set_option maxRecDepth 40000

namespace ProjectContext

/-- Decidable equality for `Except`, used to keep all traces and outcomes
of the embedding decidable (hence evaluable on concrete inputs). -/
instance {ε : Type u} {α : Type v} [DecidableEq ε] [DecidableEq α] :
    DecidableEq (Except ε α) := fun x y =>
  match x, y with
  | Except.ok a, Except.ok b =>
    match decEq a b with
    | isTrue h => isTrue (congrArg Except.ok h)
    | isFalse h => isFalse (fun hc => h (Except.ok.inj hc))
  | Except.error a, Except.error b =>
    match decEq a b with
    | isTrue h => isTrue (congrArg Except.error h)
    | isFalse h => isFalse (fun hc => h (Except.error.inj hc))
  | Except.ok _, Except.error _ => isFalse (fun hc => Except.noConfusion hc)
  | Except.error _, Except.ok _ => isFalse (fun hc => Except.noConfusion hc)

/-! ### JavaScript string primitives -/

/-- Whitespace as matched by the JS `\s` class and `String.prototype.trim`
(restricted to the code points that can occur in the inputs handled here). -/
def jsWhitespace (c : Char) : Bool :=
  c = ' ' || c = '\t' || c = '\n' || c = '\r' || c = '\x0b' || c = '\x0c' || c = ' '

/-- JS `str.split(sep)` for a one-character separator. -/
def splitChar (sep : Char) : List Char → List (List Char)
  | [] => [[]]
  | c :: cs =>
    match splitChar sep cs with
    | [] => [[]]
    | g :: gs => if c = sep then [] :: g :: gs else (c :: g) :: gs

/-- JS `str.trim()`. -/
def trimJS (l : List Char) : List Char :=
  ((l.dropWhile jsWhitespace).reverse.dropWhile jsWhitespace).reverse

/-- JS regex test `/^\d+$/`: a non-empty all-digit line. -/
def isAllDigits (l : List Char) : Bool :=
  !l.isEmpty && l.all Char.isDigit

/-- JS regex test `/^\d{2}:\d{2}:\d{2}/`: the line starts with a timestamp. -/
def startsWithTimestamp : List Char → Bool
  | a :: b :: ':' :: c :: d :: ':' :: e :: f :: _ =>
    a.isDigit && b.isDigit && c.isDigit && d.isDigit && e.isDigit && f.isDigit
  | _ => false

/-- Helper for `matchSpeakerText`: scan for the first colon that has at
least one character on each side (the lazy `(.+?)` forces the earliest
such colon, extending past colons whose remainder would be empty). -/
def splitAtColon (acc : List Char) : List Char → Option (List Char × List Char)
  | [] => none
  | c :: rest =>
    if c = ':' && !rest.isEmpty then some (acc.reverse, rest)
    else splitAtColon (c :: acc) rest

/-- JS regex match `/^(.+?):\s*(.+)$/` on a (trimmed) line, returning the
captured speaker and text.  The greedy `\s*` strips the whitespace after
the colon but backtracks to leave at least one character for `(.+)`. -/
def matchSpeakerText (line : List Char) : Option (List Char × List Char) :=
  match line with
  | [] => none
  | c0 :: rest =>
    match splitAtColon [c0] rest with
    | none => none
    | some (speaker, remainder) =>
      let w := (remainder.takeWhile jsWhitespace).length
      some (speaker, remainder.drop (min w (remainder.length - 1)))

/-! ### Transcript cleaner (`lib/transcript-utils.ts`) -/

/-- One cleaned speaker turn (interface `CleanedMessage`). -/
structure CleanedMessage where
  speaker : List Char
  text : List Char
deriving DecidableEq

/-- Classification of one line of the VTT body: skipped (blank, sequence
number, timestamp, or no `speaker: text` shape), or a content line. -/
inductive LineClass where
  | skip
  | content (speaker text : List Char)
deriving DecidableEq

/-- The per-line logic of the cleaning loop body. -/
def classifyLine (raw : List Char) : LineClass :=
  let line := trimJS raw
  if line.isEmpty || isAllDigits line || startsWithTimestamp line then LineClass.skip
  else
    match matchSpeakerText line with
    | none => LineClass.skip
    | some (sp, tx) => LineClass.content sp tx

/-- The accumulation loop of `cleanVTTTranscript`: merge consecutive lines
of the same speaker (joined by one space), flush on speaker change, flush
the final open turn at end of input. -/
def cleanLoop : List (List Char) → Option CleanedMessage → List CleanedMessage
  | [], cur =>
    match cur with
    | some m => [m]
    | none => []
  | l :: rest, cur =>
    match classifyLine l with
    | LineClass.skip => cleanLoop rest cur
    | LineClass.content sp tx =>
      match cur with
      | some m =>
        if m.speaker = sp then cleanLoop rest (some ⟨m.speaker, m.text ++ ' ' :: tx⟩)
        else m :: cleanLoop rest (some ⟨sp, tx⟩)
      | none => cleanLoop rest (some ⟨sp, tx⟩)

/-- Final formatting: `speaker: text` per turn, joined with newlines. -/
def formatMessages (msgs : List CleanedMessage) : List Char :=
  List.intercalate ['\n'] (msgs.map (fun m => m.speaker ++ ':' :: ' ' :: m.text))

/-- `cleanVTTTranscript` from `lib/transcript-utils.ts`: split on newlines,
unconditionally drop the first two lines (the WEBVTT header and the blank
line after it), then run the cleaning loop and format the result. -/
def cleanVTTTranscript (vttContent : String) : String :=
  String.mk (formatMessages (cleanLoop ((splitChar '\n' vttContent.data).drop 2) none))

/-! ### More JS string primitives -/

/-- Byte-wise prefix test on character lists. -/
def isPrefixCL : List Char → List Char → Bool
  | [], _ => true
  | _ :: _, [] => false
  | a :: as, b :: bs => a = b && isPrefixCL as bs

/-- Substring containment: `containsCL needle hay` is JS `hay.includes(needle)`. -/
def containsCL (needle : List Char) : List Char → Bool
  | [] => isPrefixCL needle []
  | c :: cs => isPrefixCL needle (c :: cs) || containsCL needle cs

/-- JS `s.includes(pat)`. -/
def strIncludes (s pat : String) : Bool :=
  containsCL pat.data s.data

/-- JS `s.toLowerCase()` (agrees on ASCII). -/
def toLowerJS (s : String) : String :=
  String.mk (s.data.map Char.toLower)

/-- Leading decimal digits of a character list, if any. -/
def leadingDigits (cs : List Char) : Option Nat :=
  let ds := cs.takeWhile Char.isDigit
  if ds.isEmpty then none
  else some (ds.foldl (fun n c => n * 10 + (c.toNat - '0'.toNat)) 0)

/-- JS `parseInt(s, 10)`: skip leading whitespace, optional sign, parse the
leading digit run; `none` models the `NaN` result. -/
def parseIntJS (s : String) : Option Int :=
  let cs := s.data.dropWhile jsWhitespace
  match cs with
  | '-' :: rest => (leadingDigits rest).map (fun n => -(n : Int))
  | '+' :: rest => (leadingDigits rest).map (fun n => (n : Int))
  | _ => (leadingDigits cs).map (fun n => (n : Int))

/-- JS `a || b` for a possibly null or empty string `a` (falsy gives `b`). -/
def jsOrElse (v : Option String) (dflt : String) : String :=
  match v with
  | some s => if s = "" then dflt else s
  | none => dflt

/-- JS truthiness filter on a possibly absent string: `some s` only when
the value is present and non-empty. -/
def truthyStr (v : Option String) : Option String :=
  match v with
  | some s => if s = "" then none else some s
  | none => none

/-! ### Summary and relevance generator (`lib/generate-summary.ts`) -/

/-- Result shape of the fused summary plus relevance LLM call
(`SummaryRelevanceSchema`). -/
structure SummaryRelevanceResult where
  summary : String
  isRelevant : Bool
  reasoning : String
deriving DecidableEq

/-- The fixed case-insensitive testing bypass phrases. -/
def testPhrases : List String :=
  ["clarity system test",
   "clarity copilot test",
   "system test clarity",
   "testing clarity system"]

/-- The bypass check: the lower-cased transcript contains one of the fixed
trigger phrases. -/
def isTestMeeting (transcript : String) : Bool :=
  testPhrases.any (fun phrase => strIncludes (toLowerJS transcript) phrase)

/-- The fixed canned result returned by the testing bypass of
`generateSummaryWithRelevance`. -/
def clarityBypassResult : SummaryRelevanceResult :=
  { summary := "Topic: Clarity System Testing Meeting\nOverview: Testing session for the Clarity Copilot transcript processing system to validate end-to-end workflow including AI relevance filtering, metadata extraction, and verified participant email retrieval from Zoom API.\nTakeaways: \n• Successfully triggered the transcript processing webhook from Zoom\n• Validated that the testing bypass mechanism works correctly\n• Confirmed relevance filtering, metadata extraction, and Zoom API participant verification are functioning\n• System properly fetches verified participant emails from Zoom API\n• Transcripts are stored with both AI-extracted and Zoom-verified participant data\n• Slack notifications are sent for relevant meetings with view and delete options\nNext Steps: \n• Monitor production logs to ensure all components are working correctly\n• Review both extracted and verified participant data accuracy in the database\n• Test the delete button functionality in Slack\n• Verify that meetings with \"clarity copilot test\" go through the entire processing flow\nPotential Gaps: \n• Need to verify batch processing integration with new shared modules\n• Should monitor Zoom API rate limits during high-volume periods",
    isRelevant := true,
    reasoning := "This is a test meeting for the Clarity system functionality - marked as relevant for testing purposes to validate the entire processing pipeline." }

/-- The shared fixed-delay retry loop (`for attempt = 1..maxAttempts`):
`oracle n` is the outcome of the model call at attempt `n`; the second
component counts the calls actually made.  The first equation models the
unreachable final `throw` after the loop. -/
def retryCalls {α : Type} (oracle : Nat → Except String α) (fallbackMsg : String) :
    Nat → Nat → Except String α × Nat
  | 0, _ => (Except.error fallbackMsg, 0)
  | 1, attempt =>
    match oracle attempt with
    | Except.ok v => (Except.ok v, 1)
    | Except.error e => (Except.error e, 1)
  | Nat.succ (Nat.succ rem), attempt =>
    match oracle attempt with
    | Except.ok v => (Except.ok v, 1)
    | Except.error _ =>
      let r := retryCalls oracle fallbackMsg (Nat.succ rem) (attempt + 1)
      (r.1, r.2 + 1)

/-- `generateSummaryWithRelevance`: the testing bypass is evaluated first;
otherwise up to 3 model attempts with a fixed 750ms delay, the final
failure being rethrown.  Returns the outcome and the number of model calls
made (0 on the bypass path). -/
def generateSummaryWithRelevance (transcript : String)
    (oracle : Nat → Except String SummaryRelevanceResult) :
    Except String SummaryRelevanceResult × Nat :=
  if isTestMeeting transcript then (Except.ok clarityBypassResult, 0)
  else retryCalls oracle "Failed to generate summary after retries" 3 1

/-! ### Metadata extractor (`lib/transcript-analysis.ts`) -/

/-- Meeting classification enum. -/
inductive MeetingType where
  | internal
  | external
  | unknown
deriving DecidableEq

/-- Result shape of the structured analysis call
(`ComprehensiveAnalysisSchema`). -/
structure ComprehensiveAnalysis where
  meetingType : MeetingType
  identifiedExternalParticipants : List String
  projects : List String
  clients : List String
deriving DecidableEq

/-- JS regex match `/^([^:\n]{1,50}):\s+/` on one line: at most 50
non-colon characters before the first colon, which must be followed by at
least one whitespace character. -/
def speakerNameMatch (line : List Char) : Option (List Char) :=
  let sp := line.takeWhile (fun c => !(c = ':'))
  if sp.length < 1 || 50 < sp.length then none
  else
    match line.drop sp.length with
    | ':' :: c :: _ => if jsWhitespace c then some sp else none
    | _ => none

/-- `extractParticipantsFromCleanedText`: collect the distinct trimmed
speaker names, in first-seen order (the JS `Set` preserves insertion
order). -/
def extractParticipantsFromCleanedText (cleanedText : String) : List String :=
  if cleanedText = "" then []
  else
    (splitChar '\n' cleanedText.data).foldl
      (fun acc line =>
        match speakerNameMatch line with
        | some sp =>
          let name := String.mk (trimJS sp)
          if acc.contains name then acc else acc ++ [name]
        | none => acc)
      []

/-- `generateComprehensiveAnalysis`: same testing bypass (checked on the
cleaned transcript), then the degenerate-input short circuit (no summary
and fewer than 50 transcript characters), then the 3-attempt retry loop.
The `participants` roster only feeds the prompt text. -/
def generateComprehensiveAnalysis (summary cleanedTranscript : String)
    (participants : List String)
    (oracle : Nat → Except String ComprehensiveAnalysis) :
    Except String ComprehensiveAnalysis × Nat :=
  if isTestMeeting cleanedTranscript then
    (Except.ok ⟨MeetingType.internal, [],
      ["Clarity Copilot", "AI-Powered Transcript Processing"], []⟩, 0)
  else if summary = "" && (cleanedTranscript = "" || cleanedTranscript.length < 50) then
    (Except.ok ⟨MeetingType.unknown, [], [], []⟩, 0)
  else
    let _ := participants
    retryCalls oracle "Failed to generate analysis after retries" 3 1

/-! ### Retrying downloader (`downloadTranscriptWithRetry`) -/

/-- Outcome of one `fetch` of the download URL: a thrown exception, or a
response with its `ok` flag, status, content type and body text. -/
inductive FetchOutcome where
  | thrown (message : String)
  | response (ok : Bool) (status : Nat) (statusText : String)
      (contentType : Option String) (body : String)
deriving DecidableEq

/-- Errors of the downloader. -/
inductive DownloadError where
  | noToken
  | httpStatus (status : Nat) (statusText : String)
  | invalidFormat
  | network (message : String)
  | exhausted
deriving DecidableEq

/-- Evaluation of one download attempt: non-ok status throws; an ok
response whose content type includes `text/html` or whose lower-cased body
includes an HTML doctype is rejected as `Invalid transcript response
format`; otherwise the body is the transcript text. -/
def attemptEval : FetchOutcome → Except DownloadError String
  | FetchOutcome.thrown m => Except.error (DownloadError.network m)
  | FetchOutcome.response ok status statusText contentType body =>
    if !ok then Except.error (DownloadError.httpStatus status statusText)
    else
      let htmlCT :=
        match contentType with
        | some ct => strIncludes ct "text/html"
        | none => false
      if htmlCT || strIncludes (toLowerJS body) "<!doctype html>" then
        Except.error DownloadError.invalidFormat
      else Except.ok body

/-- Trace of a download: final result, number of fetch attempts made, and
the backoff waits (in ms) taken between failed attempts. -/
structure DownloadTrace where
  result : Except DownloadError String
  attempts : Nat
  waits : List Nat
deriving DecidableEq

/-- The retry loop of `downloadTranscriptWithRetry`: on failure at attempt
`i < maxRetries - 1`, wait `2 ^ i * 1000` ms and retry; the error of the
last attempt is rethrown. -/
def downloadLoop (oracle : Nat → FetchOutcome) : Nat → Nat → DownloadTrace
  | 0, _ => ⟨Except.error DownloadError.exhausted, 0, []⟩
  | Nat.succ rem, attempt =>
    match attemptEval (oracle attempt) with
    | Except.ok text => ⟨Except.ok text, 1, []⟩
    | Except.error e =>
      match rem with
      | 0 => ⟨Except.error e, 1, []⟩
      | Nat.succ _ =>
        let waitTime := 2 ^ attempt * 1000
        let t := downloadLoop oracle rem (attempt + 1)
        ⟨t.result, t.attempts + 1, waitTime :: t.waits⟩

/-- `downloadTranscriptWithRetry` (final version, `part_008`): a missing
download token is a fatal, non-retryable error thrown before any fetch;
otherwise run the bounded retry loop (the access token is appended to the
URL given to `fetch`, abstracted here by the oracle). -/
def downloadTranscriptWithRetry (downloadToken : Option String)
    (oracle : Nat → FetchOutcome) (maxRetries : Nat) : DownloadTrace :=
  match downloadToken with
  | none => ⟨Except.error DownloadError.noToken, 0, []⟩
  | some _ => downloadLoop oracle maxRetries 0

/-! ### HTTP responses -/

/-- Response bodies, as the structured values the handlers build before
serialising them (JSON objects, plain text, or the rendered HTML page). -/
inductive RespBody where
  | text (s : String)
  | errorMsg (error : String)
  | errorDetails (error details : String)
  | statusMsg (status : String)
  | validation (plainToken encryptedToken : String)
  | message (m : String)
  | okFlag (ok : Bool)
  | htmlPage (title content : String)
deriving DecidableEq

/-- An HTTP response: status code and body. -/
structure HttpResponse where
  status : Nat
  body : RespBody
deriving DecidableEq

/-! ### Read-only view endpoint (`api/view-summary`, final version) -/

/-- A query-string value as seen by the handler: absent, a single string,
or repeated (an array, which fails the `typeof id === "string"` check). -/
inductive QueryParam where
  | missing
  | str (value : String)
  | many (values : List String)
deriving DecidableEq

/-- The columns the view endpoint selects from the `transcripts` table. -/
structure ViewRow where
  topic : Option String
  summary : Option String
  cleaned : Option String
  view_secret : Option String
deriving DecidableEq

/-- The `!p || typeof p !== "string"` validation of a query parameter:
present, a plain string, and non-empty. -/
def strParam : QueryParam → Option String
  | QueryParam.str s => if s = "" then none else some s
  | _ => none

/-- The GET handler of the view endpoint: 400 on a missing or non-string
id, 401 on a missing or non-string secret, 500 on a store error, 404 when
no row came back, 403 (with a fixed plain-text body) when the stored
`view_secret` differs from the supplied secret, and the rendered HTML page
otherwise.  `lookup` abstracts the Supabase single-row select. -/
def viewSummaryHandler (idParam secretParam : QueryParam)
    (lookup : String → Except String (Option ViewRow)) : HttpResponse :=
  match strParam idParam with
  | none => ⟨400, RespBody.text "Transcript ID is required."⟩
  | some id =>
    match strParam secretParam with
    | none => ⟨401, RespBody.text "Access token is required."⟩
    | some secret =>
      match lookup id with
      | Except.error _ => ⟨500, RespBody.text "Error fetching transcript summary."⟩
      | Except.ok none => ⟨404, RespBody.text "Transcript summary not found."⟩
      | Except.ok (some row) =>
        if row.view_secret ≠ some secret then
          ⟨403, RespBody.text "Invalid access token."⟩
        else
          ⟨200, RespBody.htmlPage (jsOrElse row.topic "Meeting Summary")
            (jsOrElse row.summary (jsOrElse row.cleaned "No summary content available."))⟩

/-! ### Slack interactive endpoint (`api/slack/interactive.ts`) -/

/-- One interaction action (`action_id` and its button `value`). -/
structure SlackAction where
  action_id : String
  value : String
deriving DecidableEq

/-- The parsed interaction payload: its `type`, the optional `actions`
array, and the optional `user.id` and `channel.id` fields. -/
structure SlackInteractPayload where
  type : String
  actions : Option (List SlackAction)
  userId : Option String
  channelId : Option String
deriving DecidableEq

/-- An inbound interactive request: the two Slack signature headers, the
raw body text (the HMAC input), and the result of
`new URLSearchParams(body).get("payload")` followed by `JSON.parse`
(`none` when the form field is absent, `Except.error` when the JSON parse
throws). -/
structure SlackRequest where
  signature : Option String
  timestamp : Option String
  bodyText : String
  payloadParam : Option (Except String SlackInteractPayload)

/-- The row shape of the topic lookup before deletion. -/
structure TopicRow where
  topic : Option String
deriving DecidableEq

/-- Environment of the interactive endpoint: the signing secret, the
current Unix time in seconds, the HMAC-SHA256 hex oracle
(secret and message to digest), the Supabase topic lookup and the
deletion outcome, both by transcript id. -/
structure SlackEnv where
  signingSecret : Option String
  nowSec : Int
  hmacHex : String → String → String
  fetchTopic : Int → Except String (Option TopicRow)
  deleteResult : Int → Except String Unit

/-- `verifySlackRequest`: fail closed when the secret is unconfigured or a
header is missing; reject requests older than five minutes (a `NaN`
timestamp compares false in JS and passes the age check); then compare
`"v0=" ++ HMAC(secret, "v0:" ++ timestamp ++ ":" ++ body)` with the
supplied signature.  `crypto.timingSafeEqual` throws when the two strings
differ in length, which escapes the handler (`Except.error`); at equal
length it is plain (constant-time) equality. -/
def verifySlackRequest (req : SlackRequest) (env : SlackEnv) :
    Except String (Bool × String) :=
  match env.signingSecret with
  | none => Except.ok (false, "")
  | some secret =>
    match req.signature, req.timestamp with
    | none, _ => Except.ok (false, req.bodyText)
    | some _, none => Except.ok (false, req.bodyText)
    | some sig, some ts =>
      let fiveMinutesAgo : Int := env.nowSec - 60 * 5
      let tooOld :=
        match parseIntJS ts with
        | some n => decide (n < fiveMinutesAgo)
        | none => false
      if tooOld then Except.ok (false, req.bodyText)
      else
        let calculatedSignature :=
          "v0=" ++ env.hmacHex secret ("v0:" ++ ts ++ ":" ++ req.bodyText)
        if calculatedSignature.length = sig.length then
          Except.ok (calculatedSignature = sig, req.bodyText)
        else Except.error "timingSafeEqual: input buffers must have the same byte length"

/-- Outcome of the interactive endpoint: the HTTP response, the ephemeral
messages posted (channel, user, text), and the channel messages posted
(channel, text). -/
structure InteractOutcome where
  response : HttpResponse
  ephemerals : List (String × String × String)
  posts : List (String × String)
deriving DecidableEq

/-- The POST handler of the interactive endpoint.  Signature verification
is awaited before the try block, so a `timingSafeEqual` throw escapes;
invalid signatures get 401 before the body is parsed.  Recognised
`block_actions` payloads with a `delete_transcript` action: non-numeric id
gives 400; a failed topic lookup gives 404 and a failed delete gives 500,
each notifying the acting user by an ephemeral message first (accessing
`payload.channel.id` without a channel throws and is caught as 500);
success posts a visible confirmation (its failures are swallowed by an
inner try) and returns 200.  Every other payload shape is acknowledged
with 200. -/
def interactivePOST (req : SlackRequest) (env : SlackEnv) :
    Except String InteractOutcome :=
  match verifySlackRequest req env with
  | Except.error e => Except.error e
  | Except.ok (false, _) =>
    Except.ok ⟨⟨401, RespBody.errorMsg "Invalid Slack signature"⟩, [], []⟩
  | Except.ok (true, _) =>
    match req.payloadParam with
    | none => Except.ok ⟨⟨400, RespBody.errorMsg "Missing payload"⟩, [], []⟩
    | some (Except.error _) =>
      Except.ok ⟨⟨500, RespBody.errorMsg "Internal server error"⟩, [], []⟩
    | some (Except.ok payload) =>
      if payload.type = "block_actions" then
        match (payload.actions.getD []).find?
            (fun a => a.action_id = "delete_transcript") with
        | none =>
          Except.ok ⟨⟨200, RespBody.message "Action received but not handled"⟩, [], []⟩
        | some deleteAction =>
          match parseIntJS deleteAction.value with
          | none => Except.ok ⟨⟨400, RespBody.errorMsg "Invalid transcript ID"⟩, [], []⟩
          | some transcriptId =>
            match env.fetchTopic transcriptId with
            | Except.error _ =>
              match payload.userId with
              | some userId =>
                match payload.channelId with
                | some ch =>
                  Except.ok ⟨⟨404, RespBody.errorMsg "Transcript not found"⟩,
                    [(ch, userId,
                      "Sorry, I couldn\x27t find the transcript (ID: " ++
                        toString transcriptId ++ "). It may have already been deleted.")],
                    []⟩
                | none =>
                  Except.ok ⟨⟨500, RespBody.errorMsg "Internal server error"⟩, [], []⟩
              | none =>
                Except.ok ⟨⟨404, RespBody.errorMsg "Transcript not found"⟩, [], []⟩
            | Except.ok topicRow =>
              let meetingTopic := jsOrElse (topicRow.bind (fun r => r.topic)) "Untitled Meeting"
              match env.deleteResult transcriptId with
              | Except.error deleteMsg =>
                match payload.userId with
                | some userId =>
                  match payload.channelId with
                  | some ch =>
                    Except.ok ⟨⟨500, RespBody.errorMsg "Failed to delete transcript"⟩,
                      [(ch, userId,
                        "Sorry, I couldn\x27t delete the transcript \"" ++ meetingTopic ++
                          "\" (ID: " ++ toString transcriptId ++ "). Error: " ++ deleteMsg)],
                      []⟩
                  | none =>
                    Except.ok ⟨⟨500, RespBody.errorMsg "Internal server error"⟩, [], []⟩
                | none =>
                  Except.ok ⟨⟨500, RespBody.errorMsg "Failed to delete transcript"⟩, [], []⟩
              | Except.ok _ =>
                match payload.userId, payload.channelId with
                | some _, some ch =>
                  Except.ok ⟨⟨200, RespBody.okFlag true⟩, [],
                    [(ch, "✅ Meeting transcript \"" ++ meetingTopic ++
                      "\" has been successfully deleted from the knowledge base.")]⟩
                | _, _ => Except.ok ⟨⟨200, RespBody.okFlag true⟩, [], []⟩
      else
        Except.ok ⟨⟨200, RespBody.message "Action received but not handled"⟩, [], []⟩

/-! ### Zoom payload shapes -/

/-- One recording file of the webhook payload (interface `TranscriptFile`). -/
structure TranscriptFile where
  id : String
  meeting_id : String
  recording_start : String
  recording_end : String
  file_type : String
  file_size : Nat
  play_url : String
  download_url : String
  status : String
  recording_type : String
deriving DecidableEq

/-- The meeting object of a `recording.transcript_completed` payload as
typed by the handler (`recording_files` present). -/
structure MeetingObject where
  id : String
  uuid : String
  host_id : String
  account_id : String
  topic : String
  type : Nat
  start_time : String
  timezone : String
  host_email : String
  duration : Nat
  recording_count : Option Nat
  recording_files : List TranscriptFile
deriving DecidableEq

/-- The payload handed to `handleTranscriptCompleted`. -/
structure TranscriptPayload where
  object : MeetingObject
deriving DecidableEq

/-- The meeting object as typed by the webhook endpoint, where
`recording_files` may be absent. -/
structure WebhookObject where
  id : String
  uuid : String
  host_id : String
  account_id : String
  topic : String
  type : Nat
  start_time : String
  timezone : String
  host_email : String
  duration : Nat
  recording_count : Option Nat
  recording_files : Option (List TranscriptFile)
deriving DecidableEq

/-- The inner `payload` object of a webhook envelope. -/
structure WebhookBody where
  plainToken : Option String
  object : Option WebhookObject
deriving DecidableEq

/-- The webhook envelope (`ZoomWebhookPayload`, plus the `status` field the
final handler also reads). -/
structure ZoomWebhookPayload where
  event : Option String
  payload : Option WebhookBody
  download_token : Option String
  statusField : Option String
deriving DecidableEq

/-! ### Webhook endpoint (`api/notification.ts`, final version) -/

/-- Environment of the webhook endpoint: the shared webhook secret, the
HMAC-SHA256 hex oracle, and an exception possibly raised inside the try
block while dispatching the event (which the catch converts to 500). -/
structure WebhookEnv where
  zoomSecret : Option String
  hmacHex : String → String → String
  dispatchError : Option String

/-- Result of the webhook endpoint: the response sent, and whether the
background transcript processing was started (fire and forget, after the
response is built). -/
structure WebhookResult where
  response : HttpResponse
  backgroundStarted : Bool
deriving DecidableEq

/-- The webhook POST handler (final version).  `parsed` is the result of
`JSON.parse(rawBody)`, which the code runs before the try block: a parse
failure escapes the handler (`Except.error`).  `headers` carries the
request headers; the handler never reads them (it performs no signature
verification).  Flow: drop Zoom retries of failed deliveries
(`status` of -1 or 500, acknowledged 200); the URL-validation handshake
(400 without a challenge token, 500 without a configured secret, else the
token and its HMAC digest); 400 when event or payload is falsy; for
`recording.transcript_completed`, 400 without an object or
`recording_files`, else an immediate 200 with the pipeline started in the
background; 200 for any other event; 500 with an error body when the
dispatch raised inside the try block. -/
def webhookPOST (parsed : Except String ZoomWebhookPayload)
    (_headers : List (String × String)) (env : WebhookEnv) :
    Except String WebhookResult :=
  match parsed with
  | Except.error e => Except.error e
  | Except.ok payload =>
    if payload.statusField = some "-1" || payload.statusField = some "500" then
      Except.ok ⟨⟨200, RespBody.text "Rejected failed webhook"⟩, false⟩
    else
      match env.dispatchError with
      | some e => Except.ok ⟨⟨500, RespBody.errorDetails "Internal server error" e⟩, false⟩
      | none =>
        if payload.event = some "endpoint.url_validation" then
          match truthyStr (payload.payload.bind (fun b => b.plainToken)) with
          | none => Except.ok ⟨⟨400, RespBody.errorMsg "Invalid payload"⟩, false⟩
          | some plainToken =>
            match truthyStr env.zoomSecret with
            | none => Except.ok ⟨⟨500, RespBody.errorMsg "Server configuration error"⟩, false⟩
            | some secret =>
              Except.ok ⟨⟨200, RespBody.validation plainToken (env.hmacHex secret plainToken)⟩, false⟩
        else
          match truthyStr payload.event, payload.payload with
          | none, _ => Except.ok ⟨⟨400, RespBody.errorMsg "Invalid webhook payload"⟩, false⟩
          | some _, none => Except.ok ⟨⟨400, RespBody.errorMsg "Invalid webhook payload"⟩, false⟩
          | some ev, some body =>
            if ev = "recording.transcript_completed" then
              match body.object with
              | none => Except.ok ⟨⟨400, RespBody.errorMsg "Invalid transcript payload"⟩, false⟩
              | some obj =>
                match obj.recording_files with
                | none => Except.ok ⟨⟨400, RespBody.errorMsg "Invalid transcript payload"⟩, false⟩
                | some _ => Except.ok ⟨⟨200, RespBody.statusMsg "success"⟩, true⟩
            else
              Except.ok ⟨⟨200, RespBody.statusMsg "success - unhandled event"⟩, false⟩

/-! ### Transcript pipeline (`handleTranscriptCompleted`, final single-table
version of `part_008`) -/

/-- The row inserted into the `transcripts` table (`transcriptData` in the
source; `start_time` keeps the ISO string handed to `new Date`). -/
structure TranscriptData where
  zoom_meeting_id : String
  zoom_meeting_uuid : String
  zoom_user_id : String
  topic : String
  start_time : String
  duration : Nat
  host_email : String
  recording_start : String
  recording_end : String
  download_url : String
  transcript_status : String
  raw : String
  cleaned : String
  summary : String
  extracted_participants : List String
  is_relevant : Bool
  relevance_reasoning : String
  meeting_type : MeetingType
  external_participants : List String
  projects : List String
  clients : List String
  view_secret : String
  verified_participant_emails : List String
deriving DecidableEq

/-- A Supabase insert error, carrying its Postgres error code
(`23505` is a unique-constraint violation). -/
structure InsertError where
  code : String
  message : String
deriving DecidableEq

/-- Environment of one pipeline run, abstracting every external
collaborator: the duplicate pre-check result (`data` rows and a possible
query error, which is only logged), the fetch and the two model oracles,
the verified participant emails from the Zoom API (that helper swallows
its own errors and degrades to an empty list), the generated view secret,
the insert outcome (`Except.ok` means the row was stored, carrying the
returned id when one came back), and the Slack user lookup outcome. -/
structure PipelineEnv where
  preCheckData : Option (List Nat)
  preCheckError : Option String
  fetchOracle : Nat → FetchOutcome
  summaryOracle : Nat → Except String SummaryRelevanceResult
  analysisOracle : Nat → Except String ComprehensiveAnalysis
  zoomEmails : List String
  viewSecret : String
  insertResult : Except InsertError (Option Nat)
  slackUser : Except String (Option String)

/-- The externally visible effects of a pipeline run, in order. -/
inductive Effect where
  | queryExisting (zoom_meeting_id zoom_meeting_uuid recording_start recording_end : String)
  | fetchAttempt (download_url : String)
  | summaryModelCall
  | analysisModelCall
  | zoomParticipantsFetch (uuid : String)
  | insertAttempt (row : TranscriptData)
  | slackLookup (email : String)
  | slackMessage (channel : String)
deriving DecidableEq

/-- Errors the pipeline rethrows to its caller. -/
inductive PipelineError where
  | download (e : DownloadError)
  | summaryFailed (message : String)
  | analysisFailed (message : String)
deriving DecidableEq

/-- Outcome of one pipeline run: the result the caller sees (the outer
catch logs and rethrows), the ordered effect trace, the rows actually
persisted, and the relevance decision when one was reached. -/
structure PipelineOutcome where
  result : Except PipelineError Unit
  effects : List Effect
  inserted : List TranscriptData
  relevanceDecision : Option Bool
deriving DecidableEq

/-- The `transcriptData` record assembled before the insert. -/
def buildTranscriptData (object : MeetingObject) (transcriptFile : TranscriptFile)
    (rawTranscript cleanedTranscript : String) (extractedParticipants : List String)
    (sr : SummaryRelevanceResult) (analysis : ComprehensiveAnalysis)
    (viewSecret : String) (verifiedEmails : List String) : TranscriptData :=
  { zoom_meeting_id := object.id
    zoom_meeting_uuid := object.uuid
    zoom_user_id := object.host_id
    topic := object.topic
    start_time := object.start_time
    duration := object.duration
    host_email := object.host_email
    recording_start := transcriptFile.recording_start
    recording_end := transcriptFile.recording_end
    download_url := transcriptFile.download_url
    transcript_status := "completed"
    raw := rawTranscript
    cleaned := cleanedTranscript
    summary := sr.summary
    extracted_participants := extractedParticipants
    is_relevant := sr.isRelevant
    relevance_reasoning := sr.reasoning
    meeting_type := analysis.meetingType
    external_participants := analysis.identifiedExternalParticipants
    projects := analysis.projects
    clients := analysis.clients
    view_secret := viewSecret
    verified_participant_emails := verifiedEmails }

/-- The pipeline stages after the duplicate pre-check: download with
retries, clean, fused summary and relevance call; a false relevance
decision returns before metadata extraction, the Zoom participant fetch,
persistence and notification; otherwise extract metadata, fetch verified
emails, insert (any insert error returns normally - the `23505` branch as
a logged benign duplicate, other codes as a logged failure, neither
notifying), and on a stored row with an id notify the host (Slack
failures are caught and only logged). -/
def pipelineProcess (object : MeetingObject) (transcriptFile : TranscriptFile)
    (downloadToken : Option String) (env : PipelineEnv) : PipelineOutcome :=
  let dl := downloadTranscriptWithRetry downloadToken env.fetchOracle 3
  let dlEffs := List.replicate dl.attempts (Effect.fetchAttempt transcriptFile.download_url)
  match dl.result with
  | Except.error e => ⟨Except.error (PipelineError.download e), dlEffs, [], none⟩
  | Except.ok rawTranscript =>
    let cleanedTranscript := cleanVTTTranscript rawTranscript
    let s := generateSummaryWithRelevance cleanedTranscript env.summaryOracle
    let sEffs := dlEffs ++ List.replicate s.2 Effect.summaryModelCall
    match s.1 with
    | Except.error e => ⟨Except.error (PipelineError.summaryFailed e), sEffs, [], none⟩
    | Except.ok sr =>
      if !sr.isRelevant then ⟨Except.ok (), sEffs, [], some false⟩
      else
        let extractedParticipants := extractParticipantsFromCleanedText cleanedTranscript
        let a := generateComprehensiveAnalysis sr.summary cleanedTranscript
          extractedParticipants env.analysisOracle
        let aEffs := sEffs ++ List.replicate a.2 Effect.analysisModelCall
        match a.1 with
        | Except.error e => ⟨Except.error (PipelineError.analysisFailed e), aEffs, [], some true⟩
        | Except.ok analysis =>
          let row := buildTranscriptData object transcriptFile rawTranscript
            cleanedTranscript extractedParticipants sr analysis env.viewSecret env.zoomEmails
          let insEffs := aEffs ++
            [Effect.zoomParticipantsFetch object.uuid, Effect.insertAttempt row]
          match env.insertResult with
          | Except.error _ => ⟨Except.ok (), insEffs, [], some true⟩
          | Except.ok none => ⟨Except.ok (), insEffs, [row], some true⟩
          | Except.ok (some _) =>
            match env.slackUser with
            | Except.error _ =>
              ⟨Except.ok (), insEffs ++ [Effect.slackLookup object.host_email], [row], some true⟩
            | Except.ok none =>
              ⟨Except.ok (), insEffs ++ [Effect.slackLookup object.host_email], [row], some true⟩
            | Except.ok (some userId) =>
              ⟨Except.ok (),
                insEffs ++ [Effect.slackLookup object.host_email, Effect.slackMessage userId],
                [row], some true⟩

/-- `handleTranscriptCompleted` (final version): find the
`audio_transcript` recording file (return silently when absent), query the
store for an existing record under the natural key (a query error is only
logged; found rows abort the run with no further effects), then run the
pipeline stages. -/
def handleTranscriptCompleted (payload : TranscriptPayload) (downloadToken : Option String)
    (env : PipelineEnv) : PipelineOutcome :=
  let object := payload.object
  match object.recording_files.find? (fun f => f.recording_type = "audio_transcript") with
  | none => ⟨Except.ok (), [], [], none⟩
  | some transcriptFile =>
    let queryEff := Effect.queryExisting object.id object.uuid
      transcriptFile.recording_start transcriptFile.recording_end
    let dup :=
      match env.preCheckData with
      | some rows => !rows.isEmpty
      | none => false
    if dup then ⟨Except.ok (), [queryEff], [], none⟩
    else
      let rest := pipelineProcess object transcriptFile downloadToken env
      ⟨rest.result, queryEff :: rest.effects, rest.inserted, rest.relevanceDecision⟩

/-! ### Sample concrete values used by witnesses and counterexamples -/

/-- A concrete `audio_transcript` recording file. -/
def sampleFile : TranscriptFile :=
  ⟨"file-1", "123", "2025-01-01T10:00:00Z", "2025-01-01T10:30:00Z", "TRANSCRIPT", 2048,
   "https://zoom.example/play/abc", "https://zoom.example/rec/download/abc", "completed",
   "audio_transcript"⟩

/-- A concrete meeting object holding `sampleFile`. -/
def sampleObject : MeetingObject :=
  ⟨"123", "uuid-1", "host-1", "acct-1", "Weekly Sync", 2, "2025-01-01T10:00:00Z",
   "America/New_York", "host@example.com", 30, some 1, [sampleFile]⟩

/-- The corresponding handler payload. -/
def samplePayload : TranscriptPayload := ⟨sampleObject⟩

/-- A raw VTT body whose cleaned text triggers no testing bypass. -/
def sampleRawVTT : String :=
  "WEBVTT\n\nAlice: We reviewed the roadmap and assigned owners for the launch"

/-- A fetch oracle that always serves `sampleRawVTT` successfully. -/
def sampleFetch : Nat → FetchOutcome :=
  fun _ => FetchOutcome.response true 200 "OK" (some "text/plain") sampleRawVTT

/-- A summary result judging the meeting relevant. -/
def sampleRelevant : SummaryRelevanceResult :=
  ⟨"Roadmap review with owners assigned", true, "business content"⟩

/-- A summary result judging the meeting irrelevant. -/
def sampleIrrelevant : SummaryRelevanceResult :=
  ⟨"", false, "purely personal conversation"⟩

/-- A concrete metadata analysis result. -/
def sampleAnalysis : ComprehensiveAnalysis := ⟨MeetingType.internal, [], [], []⟩

/-- A run that is judged relevant but whose insert fails with a
non-duplicate store error (connection failure). -/
def envInsertFails : PipelineEnv :=
  ⟨some [], none, sampleFetch, fun _ => Except.ok sampleRelevant,
   fun _ => Except.ok sampleAnalysis, [], "vs-1",
   Except.error ⟨"08006", "connection failure"⟩, Except.ok (some "U1")⟩

/-- A run that is judged irrelevant, with every later stage available. -/
def envIrrelevant : PipelineEnv :=
  ⟨some [], none, sampleFetch, fun _ => Except.ok sampleIrrelevant,
   fun _ => Except.ok sampleAnalysis, [], "vs-1",
   Except.ok (some 5), Except.ok (some "U1")⟩

/-- A run whose duplicate pre-check finds an existing record. -/
def envDuplicate : PipelineEnv :=
  ⟨some [7], none, sampleFetch, fun _ => Except.ok sampleRelevant,
   fun _ => Except.ok sampleAnalysis, [], "vs-1",
   Except.ok (some 5), Except.ok (some "U1")⟩

/-- A run whose insert loses the race and fails with the uniqueness
violation code 23505. -/
def envInsertDuplicate : PipelineEnv :=
  ⟨some [], none, sampleFetch, fun _ => Except.ok sampleRelevant,
   fun _ => Except.ok sampleAnalysis, [], "vs-1",
   Except.error ⟨"23505", "duplicate key value violates unique constraint"⟩,
   Except.ok (some "U1")⟩

/-- A concrete webhook meeting object (endpoint-side typing). -/
def sampleWebhookObject : WebhookObject :=
  ⟨"123", "uuid-1", "host-1", "acct-1", "Weekly Sync", 2, "2025-01-01T10:00:00Z",
   "America/New_York", "host@example.com", 30, some 1, some [sampleFile]⟩

/-- A concrete, completely unsigned `recording.transcript_completed`
webhook envelope. -/
def sampleWebhookPayload : ZoomWebhookPayload :=
  ⟨some "recording.transcript_completed", some ⟨none, some sampleWebhookObject⟩,
   some "tok", none⟩

/-- A webhook environment with a configured secret and no dispatch error. -/
def sampleWebhookEnv : WebhookEnv :=
  ⟨some "zoom-secret", fun _ _ => "digest", none⟩

/-- An interactive-endpoint environment whose topic lookup fails; the HMAC
oracle is a stub under which `"v0=abc"` is the correct signature. -/
def sampleSlackEnvFetchFail : SlackEnv :=
  ⟨some "slack-secret", 1000000, fun _ _ => "abc",
   fun _ => Except.error "database is down", fun _ => Except.ok ()⟩

/-- A correctly signed delete interaction for transcript 42. -/
def sampleDeleteRequest : SlackRequest :=
  ⟨some "v0=abc", some "1000000", "payload=...",
   some (Except.ok ⟨"block_actions", some [⟨"delete_transcript", "42"⟩],
     some "U1", some "C1"⟩)⟩

/-- A correctly signed interaction of an unrecognised shape. -/
def sampleViewSubmission : SlackRequest :=
  ⟨some "v0=abc", some "1000000", "payload=...",
   some (Except.ok ⟨"view_submission", none, some "U1", some "C1"⟩)⟩

/-- A store with one transcript row whose view secret is `right-secret`. -/
def sampleViewLookup : String → Except String (Option ViewRow) :=
  fun id =>
    if id = "1" then
      Except.ok (some ⟨some "Weekly Sync", some "The confidential summary",
        some "cleaned text", some "right-secret"⟩)
    else Except.ok none

end ProjectContext

namespace ProjectContext

/-! ### Helper lemmas -/

theorem splitChar_ne_nil (sep : Char) : ∀ l : List Char, splitChar sep l ≠ [] := by
  intro l
  cases l with
  | nil => simp [splitChar]
  | cons c cs =>
    unfold splitChar
    cases h : splitChar sep cs with
    | nil => simp
    | cons g gs => by_cases hc : c = sep <;> simp [hc]

theorem splitChar_cons (sep c : Char) (cs : List Char) :
    splitChar sep (c :: cs) =
      match splitChar sep cs with
      | [] => [[]]
      | g :: gs => if c = sep then [] :: g :: gs else (c :: g) :: gs := rfl

theorem splitChar_append (sep : Char) (a t : List Char) (ha : sep ∉ a) :
    splitChar sep (a ++ sep :: t) = a :: splitChar sep t := by
  induction a with
  | nil =>
    cases h : splitChar sep t with
    | nil => exact absurd h (splitChar_ne_nil sep t)
    | cons g gs =>
      rw [List.nil_append, splitChar_cons, h]
      simp
  | cons x xs ih =>
    have hx : x ≠ sep := by
      intro hcontra
      exact ha (hcontra ▸ List.mem_cons_self x xs)
    have hxs : sep ∉ xs := fun hm => ha (List.mem_cons_of_mem x hm)
    rw [List.cons_append, splitChar_cons, ih hxs]
    simp [hx]

/-! ### Claims -/

/-- C4: `cleanVTTTranscript` merges consecutive lines of the same speaker
into one turn joined by a single space and emits one turn per speaker
switch; on the concrete three-block input it returns exactly
`Alice: Hello there` and `Bob: Hi` on two lines; empty input yields empty
output rather than an error. -/
theorem claim_C4 :
    cleanVTTTranscript "WEBVTT\n\n1\n00:00:01.000 --> 00:00:02.000\nAlice: Hello\n\n2\n00:00:02.500 --> 00:00:03.000\nAlice: there\n\n3\n00:00:03.500 --> 00:00:04.000\nBob: Hi"
      = "Alice: Hello there\nBob: Hi"
    ∧ cleanVTTTranscript "" = ""
    ∧ (∀ l1 l2 sp t1 t2, classifyLine l1 = LineClass.content sp t1 →
        classifyLine l2 = LineClass.content sp t2 →
        cleanLoop [l1, l2] none = [⟨sp, t1 ++ ' ' :: t2⟩])
    ∧ (∀ l1 l2 sp1 sp2 t1 t2, sp1 ≠ sp2 →
        classifyLine l1 = LineClass.content sp1 t1 →
        classifyLine l2 = LineClass.content sp2 t2 →
        cleanLoop [l1, l2] none = [⟨sp1, t1⟩, ⟨sp2, t2⟩]) := by
  refine ⟨by decide, by decide, ?_, ?_⟩
  · intro l1 l2 sp t1 t2 h1 h2
    simp [cleanLoop, h1, h2]
  · intro l1 l2 sp1 sp2 t1 t2 hne h1 h2
    simp [cleanLoop, h1, h2, hne]

/-- C4 witness: the merging branch evaluated on two concrete
consecutive `Alice` lines. -/
theorem claim_C4_witness :
    cleanLoop ["Alice: Hello".data, "Alice: there".data] none =
      [⟨"Alice".data, "Hello".data ++ ' ' :: "there".data⟩] :=
  claim_C4.2.2.1 "Alice: Hello".data "Alice: there".data "Alice".data
    "Hello".data "there".data (by decide) (by decide)

/-- C5: any transcript containing any of the fixed trigger phrases
case-insensitively (in particular `Clarity Copilot test` anywhere, any
case) makes `generateSummaryWithRelevance` return the fixed canned result
with `isRelevant = true` and zero model calls, whatever the model oracle
would have answered: the bypass is evaluated first, before any model call
or retry. -/
theorem claim_C5 (transcript : String)
    (oracle : Nat → Except String SummaryRelevanceResult)
    (h : ∃ phrase ∈ testPhrases, strIncludes (toLowerJS transcript) phrase = true) :
    generateSummaryWithRelevance transcript oracle = (Except.ok clarityBypassResult, 0)
    ∧ clarityBypassResult.isRelevant = true := by
  have hb : isTestMeeting transcript = true := by
    rw [isTestMeeting, List.any_eq_true]
    simpa using h
  exact ⟨by simp [generateSummaryWithRelevance, hb], rfl⟩

/-- C5 witness: a concrete mixed-case transcript containing the
`Clarity Copilot test` trigger phrase, with a model oracle that always
fails, still gets the canned relevant result without model calls. -/
theorem claim_C5_witness :
    generateSummaryWithRelevance "We are running a CLARITY Copilot TEST today"
      (fun _ => Except.error "model unavailable") = (Except.ok clarityBypassResult, 0)
    ∧ clarityBypassResult.isRelevant = true :=
  claim_C5 "We are running a CLARITY Copilot TEST today"
    (fun _ => Except.error "model unavailable")
    ⟨"clarity copilot test", by decide, by decide⟩

/-- C6: an HTTP 200 response with a `text/html` content type is a failed
download attempt; the downloader makes at most 3 attempts; a failed first
attempt is retried after a 1000ms wait and a later success is returned;
three failures take the doubling waits 1000ms and 2000ms and surface the
error of the last attempt. -/
theorem claim_C6 (tok : String) (oracle : Nat → FetchOutcome)
    (e0 e1 e2 : DownloadError) :
    (∀ status statusText ct body, strIncludes ct "text/html" = true →
      attemptEval (FetchOutcome.response true status statusText (some ct) body) =
        Except.error DownloadError.invalidFormat)
    ∧ (downloadTranscriptWithRetry (some tok) oracle 3).attempts ≤ 3
    ∧ (attemptEval (oracle 0) = Except.error e0 → ∀ b, attemptEval (oracle 1) = Except.ok b →
        downloadTranscriptWithRetry (some tok) oracle 3 = ⟨Except.ok b, 2, [1000]⟩)
    ∧ (attemptEval (oracle 0) = Except.error e0 → attemptEval (oracle 1) = Except.error e1 →
        attemptEval (oracle 2) = Except.error e2 →
        downloadTranscriptWithRetry (some tok) oracle 3 = ⟨Except.error e2, 3, [1000, 2000]⟩) := by
  refine ⟨?_, ?_, ?_, ?_⟩
  · intro status statusText ct body h
    simp [attemptEval, h]
  · cases h0 : attemptEval (oracle 0) with
    | ok b => simp [downloadTranscriptWithRetry, downloadLoop, h0]
    | error e =>
      cases h1 : attemptEval (oracle 1) with
      | ok b => simp [downloadTranscriptWithRetry, downloadLoop, h0, h1]
      | error e =>
        cases h2 : attemptEval (oracle 2) with
        | ok b => simp [downloadTranscriptWithRetry, downloadLoop, h0, h1, h2]
        | error e => simp [downloadTranscriptWithRetry, downloadLoop, h0, h1, h2]
  · intro h0 b h1
    simp [downloadTranscriptWithRetry, downloadLoop, h0, h1]
  · intro h0 h1 h2
    simp [downloadTranscriptWithRetry, downloadLoop, h0, h1, h2]

/-- C6 witness: an oracle that always answers HTTP 200 with `text/html`
is retried to exhaustion with waits 1000ms and 2000ms and ends in the
invalid-format error. -/
theorem claim_C6_witness :
    downloadTranscriptWithRetry (some "tok")
      (fun _ => FetchOutcome.response true 200 "OK" (some "text/html") "<html>") 3 =
      ⟨Except.error DownloadError.invalidFormat, 3, [1000, 2000]⟩ :=
  (claim_C6 "tok" (fun _ => FetchOutcome.response true 200 "OK" (some "text/html") "<html>")
    DownloadError.invalidFormat DownloadError.invalidFormat
    DownloadError.invalidFormat).2.2.2 (by decide) (by decide) (by decide)

/-- C10: `cleanVTTTranscript` unconditionally discards the first two lines
before any processing: replacing the first two (newline-free) lines of the
input by any other two lines, including speaker content, never changes the
output. -/
theorem claim_C10 (a b a2 b2 rest : List Char)
    (ha : '\n' ∉ a) (hb : '\n' ∉ b) (ha2 : '\n' ∉ a2) (hb2 : '\n' ∉ b2) :
    cleanVTTTranscript (String.mk (a ++ '\n' :: (b ++ '\n' :: rest))) =
      cleanVTTTranscript (String.mk (a2 ++ '\n' :: (b2 ++ '\n' :: rest))) := by
  have e1 : splitChar '\n' (a ++ '\n' :: (b ++ '\n' :: rest)) =
      a :: b :: splitChar '\n' rest := by
    rw [splitChar_append '\n' a _ ha, splitChar_append '\n' b _ hb]
  have e2 : splitChar '\n' (a2 ++ '\n' :: (b2 ++ '\n' :: rest)) =
      a2 :: b2 :: splitChar '\n' rest := by
    rw [splitChar_append '\n' a2 _ ha2, splitChar_append '\n' b2 _ hb2]
  show String.mk (formatMessages (cleanLoop
      ((splitChar '\n' (a ++ '\n' :: (b ++ '\n' :: rest))).drop 2) none)) =
    String.mk (formatMessages (cleanLoop
      ((splitChar '\n' (a2 ++ '\n' :: (b2 ++ '\n' :: rest))).drop 2) none))
  rw [e1, e2]
  simp

/-- C10 witness: speaker content in the first two lines is discarded
exactly as the WEBVTT header would be. -/
theorem claim_C10_witness :
    cleanVTTTranscript (String.mk ("Alice: SECRET".data ++ '\n' ::
        ("Bob: HIDDEN".data ++ '\n' :: "Carol: Hi".data))) =
      cleanVTTTranscript (String.mk ("WEBVTT".data ++ '\n' ::
        ("".data ++ '\n' :: "Carol: Hi".data))) :=
  claim_C10 "Alice: SECRET".data "Bob: HIDDEN".data "WEBVTT".data "".data
    "Carol: Hi".data (by decide) (by decide) (by decide) (by decide)

/-- C7 counterexample: the claim says a missing secret query parameter
gets 400, but the view endpoint answers 401 (`Access token is
required.`) when only the secret is missing. -/
theorem claim_C7_counterexample :
    viewSummaryHandler (QueryParam.str "1") QueryParam.missing sampleViewLookup =
      ⟨401, RespBody.text "Access token is required."⟩
    ∧ (401 : Nat) ≠ 400 :=
  ⟨rfl, by decide⟩

/-- C7 (amended): the view endpoint returns the HTML rendering exactly
when the supplied secret equals the stored `view_secret`; it responds 400
when the id is missing, 401 (not 400) when the secret is missing, 500 on
a store error, 404 when the row is absent, and 403 with a fixed
plain-text body (leaking no summary content) when the secret mismatches. -/
theorem claim_C7 (idParam secretParam : QueryParam)
    (lookup : String → Except String (Option ViewRow)) :
    (strParam idParam = none →
      viewSummaryHandler idParam secretParam lookup =
        ⟨400, RespBody.text "Transcript ID is required."⟩)
    ∧ (∀ id, strParam idParam = some id → strParam secretParam = none →
        viewSummaryHandler idParam secretParam lookup =
          ⟨401, RespBody.text "Access token is required."⟩)
    ∧ (∀ id secret e, strParam idParam = some id → strParam secretParam = some secret →
        lookup id = Except.error e →
        viewSummaryHandler idParam secretParam lookup =
          ⟨500, RespBody.text "Error fetching transcript summary."⟩)
    ∧ (∀ id secret, strParam idParam = some id → strParam secretParam = some secret →
        lookup id = Except.ok none →
        viewSummaryHandler idParam secretParam lookup =
          ⟨404, RespBody.text "Transcript summary not found."⟩)
    ∧ (∀ id secret row, strParam idParam = some id → strParam secretParam = some secret →
        lookup id = Except.ok (some row) → row.view_secret ≠ some secret →
        viewSummaryHandler idParam secretParam lookup =
          ⟨403, RespBody.text "Invalid access token."⟩)
    ∧ (∀ id secret row, strParam idParam = some id → strParam secretParam = some secret →
        lookup id = Except.ok (some row) →
        ((viewSummaryHandler idParam secretParam lookup).status = 200 ↔
          row.view_secret = some secret)) := by
  refine ⟨?_, ?_, ?_, ?_, ?_, ?_⟩
  · intro h
    simp [viewSummaryHandler, h]
  · intro id h1 h2
    simp [viewSummaryHandler, h1, h2]
  · intro id secret e h1 h2 h3
    simp [viewSummaryHandler, h1, h2, h3]
  · intro id secret h1 h2 h3
    simp [viewSummaryHandler, h1, h2, h3]
  · intro id secret row h1 h2 h3 h4
    simp [viewSummaryHandler, h1, h2, h3, h4]
  · intro id secret row h1 h2 h3
    by_cases hs : row.view_secret = some secret <;>
      simp [viewSummaryHandler, h1, h2, h3, hs]

/-- C7 witness: a request with the correct id but a wrong secret gets 403
with the fixed body. -/
theorem claim_C7_witness :
    viewSummaryHandler (QueryParam.str "1") (QueryParam.str "wrong-secret")
      sampleViewLookup = ⟨403, RespBody.text "Invalid access token."⟩ :=
  (claim_C7 (QueryParam.str "1") (QueryParam.str "wrong-secret")
      sampleViewLookup).2.2.2.2.1 "1" "wrong-secret"
    ⟨some "Weekly Sync", some "The confidential summary", some "cleaned text",
      some "right-secret"⟩ (by decide) (by decide) (by decide) (by decide)

/-- C9 counterexample: a request body that is not valid JSON makes
`JSON.parse` throw before the try block of the webhook handler, so the
exception escapes the handler instead of being answered with 500. -/
theorem claim_C9_counterexample :
    webhookPOST (Except.error "Unexpected token i in JSON at position 0") []
      sampleWebhookEnv =
      Except.error "Unexpected token i in JSON at position 0" :=
  rfl

/-- C9 (amended): an exception raised inside the try block of the webhook
handler while dispatching the event is answered with HTTP 500 and an
error body; but a request body that is not valid JSON raises at
`JSON.parse`, which runs before the try block, and that exception escapes
the handler. -/
theorem claim_C9 (parsed : Except String ZoomWebhookPayload)
    (headers : List (String × String)) (env : WebhookEnv)
    (payload : ZoomWebhookPayload) (e : String) :
    (parsed = Except.error e → webhookPOST parsed headers env = Except.error e)
    ∧ (parsed = Except.ok payload →
        payload.statusField ≠ some "-1" → payload.statusField ≠ some "500" →
        env.dispatchError = some e →
        webhookPOST parsed headers env =
          Except.ok ⟨⟨500, RespBody.errorDetails "Internal server error" e⟩, false⟩) := by
  constructor
  · intro h
    subst h
    rfl
  · intro h h1 h2 h3
    subst h
    simp [webhookPOST, h1, h2, h3]

/-- C9 witness: a dispatch exception on a concrete transcript-completed
envelope is answered with 500 and an error body. -/
theorem claim_C9_witness :
    webhookPOST (Except.ok sampleWebhookPayload) []
      ⟨some "zoom-secret", fun _ _ => "digest", some "boom"⟩ =
      Except.ok ⟨⟨500, RespBody.errorDetails "Internal server error" "boom"⟩, false⟩ :=
  (claim_C9 (Except.ok sampleWebhookPayload) []
      ⟨some "zoom-secret", fun _ _ => "digest", some "boom"⟩
      sampleWebhookPayload "boom").2 rfl (by decide) (by decide) rfl

/-- C2 counterexample: a concrete `recording.transcript_completed` request
with no signature headers at all is accepted with 200, not rejected with
401: the webhook endpoint performs no signature verification. -/
theorem claim_C2_counterexample :
    webhookPOST (Except.ok sampleWebhookPayload) [] sampleWebhookEnv =
      Except.ok ⟨⟨200, RespBody.statusMsg "success"⟩, true⟩
    ∧ (200 : Nat) ≠ 401 :=
  ⟨rfl, by decide⟩

/-- C2 (amended): the webhook endpoint performs no signature verification
and never responds 401, whatever the headers; the fail-closed 401
behaviour exists only on the Slack interactive endpoint, which rejects
before the payload is parsed when a signature or timestamp header is
absent, when the signing secret is unconfigured, or when the supplied
signature differs (at equal length, where the constant-time comparison is
plain equality) from the expected `v0=` HMAC over timestamp and raw
body. -/
theorem claim_C2 :
    (∀ (parsed : Except String ZoomWebhookPayload) (headers : List (String × String))
       (env : WebhookEnv) (r : WebhookResult),
        webhookPOST parsed headers env = Except.ok r → r.response.status ≠ 401)
    ∧ (∀ (req : SlackRequest) (env : SlackEnv), req.signature = none →
        interactivePOST req env =
          Except.ok ⟨⟨401, RespBody.errorMsg "Invalid Slack signature"⟩, [], []⟩)
    ∧ (∀ (req : SlackRequest) (env : SlackEnv), req.timestamp = none →
        interactivePOST req env =
          Except.ok ⟨⟨401, RespBody.errorMsg "Invalid Slack signature"⟩, [], []⟩)
    ∧ (∀ (req : SlackRequest) (env : SlackEnv), env.signingSecret = none →
        interactivePOST req env =
          Except.ok ⟨⟨401, RespBody.errorMsg "Invalid Slack signature"⟩, [], []⟩)
    ∧ (∀ (req : SlackRequest) (env : SlackEnv) (sig ts secret : String) (n : Int),
        req.signature = some sig → req.timestamp = some ts →
        env.signingSecret = some secret →
        parseIntJS ts = some n → ¬(n < env.nowSec - 60 * 5) →
        ("v0=" ++ env.hmacHex secret ("v0:" ++ ts ++ ":" ++ req.bodyText)).length = sig.length →
        "v0=" ++ env.hmacHex secret ("v0:" ++ ts ++ ":" ++ req.bodyText) ≠ sig →
        interactivePOST req env =
          Except.ok ⟨⟨401, RespBody.errorMsg "Invalid Slack signature"⟩, [], []⟩) := by
  refine ⟨?_, ?_, ?_, ?_, ?_⟩
  · intro parsed headers env r h
    unfold webhookPOST at h
    repeat' split at h
    all_goals first
      | exact Except.noConfusion h
      | (injection h with h2; subst h2; simp)
  · intro req env h
    cases hs : env.signingSecret with
    | none => simp [interactivePOST, verifySlackRequest, hs]
    | some secret => simp [interactivePOST, verifySlackRequest, hs, h]
  · intro req env h
    cases hs : env.signingSecret with
    | none => simp [interactivePOST, verifySlackRequest, hs]
    | some secret =>
      cases hg : req.signature with
      | none => simp [interactivePOST, verifySlackRequest, hs, hg]
      | some sig => simp [interactivePOST, verifySlackRequest, hs, hg, h]
  · intro req env h
    simp [interactivePOST, verifySlackRequest, h]
  · intro req env sig ts secret n h1 h2 h3 h4 h5 h6 h7
    simp [interactivePOST, verifySlackRequest, h1, h2, h3, h4, h5, h6, h7]

/-- C2 witness: the concrete unsigned webhook request of the
counterexample yields a non-401 status, and a concrete interactive request
without a signature header is rejected with 401. -/
theorem claim_C2_witness :
    ((⟨⟨200, RespBody.statusMsg "success"⟩, true⟩ : WebhookResult).response.status ≠ 401)
    ∧ interactivePOST ⟨none, some "1000000", "payload=...", none⟩ sampleSlackEnvFetchFail =
        Except.ok ⟨⟨401, RespBody.errorMsg "Invalid Slack signature"⟩, [], []⟩ :=
  ⟨claim_C2.1 (Except.ok sampleWebhookPayload) [] sampleWebhookEnv _ rfl,
   claim_C2.2.1 ⟨none, some "1000000", "payload=...", none⟩ sampleSlackEnvFetchFail rfl⟩

/-- C8 counterexample: a validly signed, well-formed delete action whose
record lookup fails is answered with HTTP 404, not 200 (the failure is
additionally reported to the acting user by an ephemeral message). -/
theorem claim_C8_counterexample :
    interactivePOST sampleDeleteRequest sampleSlackEnvFetchFail =
      Except.ok ⟨⟨404, RespBody.errorMsg "Transcript not found"⟩,
        [("C1", "U1", "Sorry, I couldn\x27t find the transcript (ID: 42). It may have already been deleted.")],
        []⟩
    ∧ (404 : Nat) ≠ 200 := by
  constructor
  · rfl
  · decide

/-- C8 (amended): for validly signed interactive requests, payload shapes
the endpoint does not understand are acknowledged with 200 and ignored;
understood delete actions that fail do send the acting user an ephemeral
failure message, but the HTTP status is 404 (lookup failure) or 500
(delete failure), not 200. -/
theorem claim_C8 (req : SlackRequest) (env : SlackEnv)
    (payload : SlackInteractPayload)
    (hv : verifySlackRequest req env = Except.ok (true, req.bodyText))
    (hp : req.payloadParam = some (Except.ok payload)) :
    (payload.type ≠ "block_actions" →
      interactivePOST req env =
        Except.ok ⟨⟨200, RespBody.message "Action received but not handled"⟩, [], []⟩)
    ∧ (∀ act tid uid ch e, payload.type = "block_actions" →
        (payload.actions.getD []).find? (fun a => a.action_id = "delete_transcript") = some act →
        parseIntJS act.value = some tid →
        env.fetchTopic tid = Except.error e →
        payload.userId = some uid → payload.channelId = some ch →
        interactivePOST req env =
          Except.ok ⟨⟨404, RespBody.errorMsg "Transcript not found"⟩,
            [(ch, uid, "Sorry, I couldn\x27t find the transcript (ID: " ++
              toString tid ++ "). It may have already been deleted.")], []⟩)
    ∧ (∀ act tid uid ch topicRow deleteMsg, payload.type = "block_actions" →
        (payload.actions.getD []).find? (fun a => a.action_id = "delete_transcript") = some act →
        parseIntJS act.value = some tid →
        env.fetchTopic tid = Except.ok topicRow →
        env.deleteResult tid = Except.error deleteMsg →
        payload.userId = some uid → payload.channelId = some ch →
        interactivePOST req env =
          Except.ok ⟨⟨500, RespBody.errorMsg "Failed to delete transcript"⟩,
            [(ch, uid, "Sorry, I couldn\x27t delete the transcript \"" ++
              jsOrElse (topicRow.bind (fun r => r.topic)) "Untitled Meeting" ++
              "\" (ID: " ++ toString tid ++ "). Error: " ++ deleteMsg)], []⟩) := by
  refine ⟨?_, ?_, ?_⟩
  · intro ht
    simp [interactivePOST, hv, hp, ht]
  · intro act tid uid ch e ht hact htid hfetch huid hch
    simp [interactivePOST, hv, hp, ht, hact, htid, hfetch, huid, hch]
  · intro act tid uid ch topicRow deleteMsg ht hact htid hfetch hdel huid hch
    simp [interactivePOST, hv, hp, ht, hact, htid, hfetch, hdel, huid, hch]

/-- C8 witness: a validly signed interaction of an unrecognised shape is
acknowledged with 200 and nothing else happens. -/
theorem claim_C8_witness :
    interactivePOST sampleViewSubmission sampleSlackEnvFetchFail =
      Except.ok ⟨⟨200, RespBody.message "Action received but not handled"⟩, [], []⟩ :=
  (claim_C8 sampleViewSubmission sampleSlackEnvFetchFail
      ⟨"view_submission", none, some "U1", some "C1"⟩ (by decide) rfl).1 (by decide)

/-- C1 counterexample: a run judged relevant whose insert fails with a
non-duplicate store error persists no record, so a record existing is not
equivalent to the meeting having been judged relevant - only the forward
direction (a record exists only if judged relevant) holds. -/
theorem claim_C1_counterexample :
    (handleTranscriptCompleted samplePayload (some "tok") envInsertFails).relevanceDecision
      = some true
    ∧ (handleTranscriptCompleted samplePayload (some "tok") envInsertFails).inserted = [] := by
  constructor
  · decide
  · decide

/-- C1 (amended): when the relevance decision of a run is false, the
handler returns normally having attempted no insert, no metadata
extraction model call, no Zoom participant fetch and no Slack lookup or
message; and every row any run persists has `is_relevant = true` (a
record exists only if its meeting was judged relevant; the converse can
fail when the insert itself fails). -/
theorem claim_C1 (payload : TranscriptPayload) (downloadToken : Option String)
    (env : PipelineEnv) (out : PipelineOutcome)
    (hout : handleTranscriptCompleted payload downloadToken env = out) :
    (out.relevanceDecision = some false →
      out.result = Except.ok () ∧
      out.inserted = [] ∧
      (∀ row, Effect.insertAttempt row ∉ out.effects) ∧
      Effect.analysisModelCall ∉ out.effects ∧
      (∀ u, Effect.zoomParticipantsFetch u ∉ out.effects) ∧
      (∀ e, Effect.slackLookup e ∉ out.effects) ∧
      (∀ c, Effect.slackMessage c ∉ out.effects)) ∧
    (∀ row, row ∈ out.inserted → row.is_relevant = true) := by
  subst hout
  simp only [handleTranscriptCompleted]
  cases hfind : payload.object.recording_files.find?
      (fun f => f.recording_type = "audio_transcript") with
  | none =>
    simp only [hfind]
    exact ⟨fun hdec => by simp at hdec, fun row hrow => by simp at hrow⟩
  | some tf =>
    simp only [hfind]
    by_cases hdup : (match env.preCheckData with
      | some rows => !rows.isEmpty
      | none => false) = true
    · simp only [if_pos hdup]
      exact ⟨fun hdec => by simp at hdec, fun row hrow => by simp at hrow⟩
    · simp only [if_neg hdup, pipelineProcess]
      cases hdl : (downloadTranscriptWithRetry downloadToken env.fetchOracle 3).result with
      | error e =>
        simp only [hdl]
        exact ⟨fun hdec => by simp at hdec, fun row hrow => by simp at hrow⟩
      | ok raw =>
        simp only [hdl]
        cases hsum : (generateSummaryWithRelevance (cleanVTTTranscript raw)
            env.summaryOracle).1 with
        | error e =>
          simp only [hsum]
          exact ⟨fun hdec => by simp at hdec, fun row hrow => by simp at hrow⟩
        | ok sr =>
          simp only [hsum]
          by_cases hrel : sr.isRelevant = true
          · rw [if_neg (by simp [hrel])]
            refine ⟨fun hdec => ?_, fun row hrow => ?_⟩
            · exfalso
              revert hdec
              repeat' split
              all_goals simp
            · revert hrow
              repeat' split
              all_goals intro hrow
              all_goals simp_all [buildTranscriptData]
          · have hrelF : sr.isRelevant = false := by
              simpa using hrel
            rw [if_pos (by simp [hrelF])]
            refine ⟨fun hdec => ?_, fun row hrow => ?_⟩
            · refine ⟨rfl, rfl, ?_, ?_, ?_, ?_, ?_⟩ <;> intros <;> simp
            · simp at hrow

/-- C1 witness: a concrete run judged irrelevant returns normally with no
insert attempt, no notification effects and no persisted row. -/
theorem claim_C1_witness :
    (handleTranscriptCompleted samplePayload (some "tok") envIrrelevant).result
      = Except.ok ()
    ∧ (handleTranscriptCompleted samplePayload (some "tok") envIrrelevant).inserted = [] := by
  have h := (claim_C1 samplePayload (some "tok") envIrrelevant
    (handleTranscriptCompleted samplePayload (some "tok") envIrrelevant) rfl).1 (by decide)
  exact ⟨h.1, h.2.1⟩

/-- C3: when the duplicate pre-check finds rows under the natural key the
handler stops after the single store query, before any download, model
call, insert or notification; and when the run reaches an insert that
fails with the uniqueness-violation code 23505, the handler returns
normally (no error surfaced), persisting nothing and sending no
notification. -/
theorem claim_C3 (payload : TranscriptPayload) (downloadToken : Option String)
    (env : PipelineEnv) (tf : TranscriptFile) (rows : List Nat) (raw : String)
    (sr : SummaryRelevanceResult) (an : ComprehensiveAnalysis) (m : String) :
    (payload.object.recording_files.find?
        (fun f => f.recording_type = "audio_transcript") = some tf →
      env.preCheckData = some rows → rows ≠ [] →
      handleTranscriptCompleted payload downloadToken env =
        ⟨Except.ok (), [Effect.queryExisting payload.object.id payload.object.uuid
          tf.recording_start tf.recording_end], [], none⟩)
    ∧ (payload.object.recording_files.find?
          (fun f => f.recording_type = "audio_transcript") = some tf →
        (∀ rs, env.preCheckData = some rs → rs = []) →
        (downloadTranscriptWithRetry downloadToken env.fetchOracle 3).result =
          Except.ok raw →
        (generateSummaryWithRelevance (cleanVTTTranscript raw) env.summaryOracle).1 =
          Except.ok sr →
        sr.isRelevant = true →
        (generateComprehensiveAnalysis sr.summary (cleanVTTTranscript raw)
            (extractParticipantsFromCleanedText (cleanVTTTranscript raw))
            env.analysisOracle).1 = Except.ok an →
        env.insertResult = Except.error ⟨"23505", m⟩ →
        (handleTranscriptCompleted payload downloadToken env).result = Except.ok ()
        ∧ (handleTranscriptCompleted payload downloadToken env).inserted = []
        ∧ (∀ e, Effect.slackLookup e ∉
            (handleTranscriptCompleted payload downloadToken env).effects)
        ∧ (∀ c, Effect.slackMessage c ∉
            (handleTranscriptCompleted payload downloadToken env).effects)) := by
  constructor
  · intro h1 h2 h3
    cases rows with
    | nil => exact absurd rfl h3
    | cons r rs => simp [handleTranscriptCompleted, h1, h2]
  · intro h1 h2 hdl hsum hrel han hins
    have hpc : (match env.preCheckData with
        | some rows => !rows.isEmpty
        | none => false) = false := by
      cases hq : env.preCheckData with
      | none => rfl
      | some rs =>
        have hrs := h2 rs hq
        subst hrs
        rfl
    simp [handleTranscriptCompleted, pipelineProcess, h1, hpc, hdl, hsum, hrel, han, hins]

/-- C3 witness: on the concrete payload, a pre-check hit stops the run at
the single query, and a 23505 insert failure on an otherwise successful
run returns normally with nothing persisted. -/
theorem claim_C3_witness :
    handleTranscriptCompleted samplePayload (some "tok") envDuplicate =
      ⟨Except.ok (), [Effect.queryExisting "123" "uuid-1" "2025-01-01T10:00:00Z"
        "2025-01-01T10:30:00Z"], [], none⟩
    ∧ (handleTranscriptCompleted samplePayload (some "tok") envInsertDuplicate).result
        = Except.ok ()
    ∧ (handleTranscriptCompleted samplePayload (some "tok") envInsertDuplicate).inserted
        = [] := by
  refine ⟨?_, ?_, ?_⟩
  · exact (claim_C3 samplePayload (some "tok") envDuplicate sampleFile [7] ""
      sampleRelevant sampleAnalysis "x").1 (by decide) rfl (by decide)
  · exact ((claim_C3 samplePayload (some "tok") envInsertDuplicate sampleFile []
      sampleRawVTT sampleRelevant sampleAnalysis
      "duplicate key value violates unique constraint").2 (by decide)
      (fun rs h => (Option.some.inj h).symm) (by decide) (by decide) rfl (by decide) rfl).1
  · exact ((claim_C3 samplePayload (some "tok") envInsertDuplicate sampleFile []
      sampleRawVTT sampleRelevant sampleAnalysis
      "duplicate key value violates unique constraint").2 (by decide)
      (fun rs h => (Option.some.inj h).symm) (by decide) (by decide) rfl (by decide) rfl).2.1

end ProjectContext
